import Mathlib

/-!
Shallow embedding of the in-memory item registry of `src/main.py`
(FastAPI CRUD over a global Python list `items_db`), together with
proofs of its specification properties.

Modelling conventions:
* The global mutable list `items_db` becomes an explicit state value of
  type `List Item`; each handler takes the current state and returns the
  new state together with its result.
* A Python `raise HTTPException(...)` becomes an `Except.error` result;
  since the handlers raise before mutating, the state component is the
  unchanged input state in every error case.
* `price` is declared `float` in the source; the program only stores and
  returns it (no arithmetic, no comparison on it), so it is modelled by
  `Rat`, which keeps every definition executable and decidable.
* Python `int` is modelled by `Int`.
-/

namespace Registry

/-- Item record, mirroring the pydantic model `Item` of `src/main.py`:
`id : int`, `name : str`, `price : float`, `description : Optional[str]`. -/
structure Item where
  id : Int
  name : String
  price : Rat
  description : Option String
deriving DecidableEq, Repr

/-- Error raised by the handlers: `HTTPException(status_code, detail)`. -/
structure HTTPException where
  status_code : Nat
  detail : String
deriving DecidableEq, Repr

/-- The 404 error raised by `get_item`, `update_item`, `delete_item`. -/
def notFoundExc : HTTPException :=
  { status_code := 404, detail := "Item not found" }

/-- The 400 error raised by `create_item` on an id collision. -/
def duplicateKeyExc : HTTPException :=
  { status_code := 400, detail := "Item with this ID already exists" }

/-- Success payload of `delete_item`:
the dict `{"message": "Item deleted successfully"}`. -/
structure DeleteResponse where
  message : String
deriving DecidableEq, Repr

/-- Handler `create_item` (`POST /items/`): scans `items_db` for an
existing item with the same `id`; raises 400 if found, otherwise appends
the item and returns it. -/
def create_item (db : List Item) (item : Item) :
    List Item × Except HTTPException Item :=
  if db.any (fun existing => existing.id = item.id) then
    (db, .error duplicateKeyExc)
  else
    (db ++ [item], .ok item)

/-- Handler `get_all_items` (`GET /items/`): returns the whole list. -/
def get_all_items (db : List Item) : List Item := db

/-- Handler `get_item` (`GET /items/{item_id}`): returns the first stored
item whose `id` matches, or raises 404. -/
def get_item (db : List Item) (item_id : Int) : Except HTTPException Item :=
  match db with
  | [] => .error notFoundExc
  | item :: rest =>
    if item.id = item_id then .ok item else get_item rest item_id

/-- Handler `update_item` (`PUT /items/{item_id}`): replaces the first
stored item whose `id` matches the path id with `updated_item` (the
embedded `updated_item.id` is not cross-checked) and returns
`updated_item`; raises 404 when no stored id matches. -/
def update_item (db : List Item) (item_id : Int) (updated_item : Item) :
    List Item × Except HTTPException Item :=
  match db with
  | [] => ([], .error notFoundExc)
  | item :: rest =>
    if item.id = item_id then
      (updated_item :: rest, .ok updated_item)
    else
      let r := update_item rest item_id updated_item
      (item :: r.1, r.2)

/-- Handler `delete_item` (`DELETE /items/{item_id}`): removes the first
stored item whose `id` matches and returns the acknowledgment message;
raises 404 when no stored id matches. -/
def delete_item (db : List Item) (item_id : Int) :
    List Item × Except HTTPException DeleteResponse :=
  match db with
  | [] => ([], .error notFoundExc)
  | item :: rest =>
    if item.id = item_id then
      (rest, .ok { message := "Item deleted successfully" })
    else
      let r := delete_item rest item_id
      (item :: r.1, r.2)

/-- One mutating API call (the read-only calls do not change the state). -/
inductive Op where
  | create (item : Item)
  | update (item_id : Int) (item : Item)
  | delete (item_id : Int)
deriving DecidableEq, Repr

/-- State transition of one call: the handler runs and the registry keeps
the state the handler left behind (unchanged whenever it raised). -/
def applyOp (db : List Item) : Op → List Item
  | .create item => (create_item db item).1
  | .update item_id item => (update_item db item_id item).1
  | .delete item_id => (delete_item db item_id).1

/-- Registry state reached from the empty store (`items_db = []`) after a
sequence of calls. -/
def runOps (ops : List Op) : List Item :=
  ops.foldl applyOp []

/-- An operation is update-consistent when, in case it is an `update`,
the embedded id of its payload equals the path id. -/
def updateConsistent : Op → Bool
  | .update item_id item => item.id = item_id
  | _ => true

/-! Core behaviour lemmas: each handler on an id with no stored match,
and on the first stored match. -/

theorem get_item_of_no_match (db : List Item) (item_id : Int)
    (h : ∀ e ∈ db, e.id ≠ item_id) :
    get_item db item_id = .error notFoundExc := by
  induction db with
  | nil => rfl
  | cons a rest ih =>
    have ha : a.id ≠ item_id := h a (by simp)
    simp only [get_item, ha, if_false, ite_false]
    exact ih (fun e he => h e (by simp [he]))

theorem get_item_first_match (pre post : List Item) (it : Item) (item_id : Int)
    (hpre : ∀ e ∈ pre, e.id ≠ item_id) (hit : it.id = item_id) :
    get_item (pre ++ it :: post) item_id = .ok it := by
  induction pre with
  | nil => simp [get_item, hit]
  | cons a rest ih =>
    have ha : a.id ≠ item_id := hpre a (by simp)
    simp only [List.cons_append, get_item, ha, ite_false]
    exact ih (fun e he => hpre e (by simp [he]))

theorem update_item_of_no_match (db : List Item) (item_id : Int) (X : Item)
    (h : ∀ e ∈ db, e.id ≠ item_id) :
    update_item db item_id X = (db, .error notFoundExc) := by
  induction db with
  | nil => rfl
  | cons a rest ih =>
    have ha : a.id ≠ item_id := h a (by simp)
    have ih' := ih (fun e he => h e (by simp [he]))
    simp [update_item, ha, ih']

theorem update_item_first_match (pre post : List Item) (it X : Item)
    (item_id : Int) (hpre : ∀ e ∈ pre, e.id ≠ item_id)
    (hit : it.id = item_id) :
    update_item (pre ++ it :: post) item_id X = (pre ++ X :: post, .ok X) := by
  induction pre with
  | nil => simp [update_item, hit]
  | cons a rest ih =>
    have ha : a.id ≠ item_id := hpre a (by simp)
    have ih' := ih (fun e he => hpre e (by simp [he]))
    simp [update_item, ha, ih']

theorem delete_item_of_no_match (db : List Item) (item_id : Int)
    (h : ∀ e ∈ db, e.id ≠ item_id) :
    delete_item db item_id = (db, .error notFoundExc) := by
  induction db with
  | nil => rfl
  | cons a rest ih =>
    have ha : a.id ≠ item_id := h a (by simp)
    have ih' := ih (fun e he => h e (by simp [he]))
    simp [delete_item, ha, ih']

theorem delete_item_first_match (pre post : List Item) (it : Item)
    (item_id : Int) (hpre : ∀ e ∈ pre, e.id ≠ item_id)
    (hit : it.id = item_id) :
    delete_item (pre ++ it :: post) item_id
      = (pre ++ post, .ok { message := "Item deleted successfully" }) := by
  induction pre with
  | nil => simp [delete_item, hit]
  | cons a rest ih =>
    have ha : a.id ≠ item_id := hpre a (by simp)
    have ih' := ih (fun e he => hpre e (by simp [he]))
    simp [delete_item, ha, ih']

theorem create_item_of_no_dup (db : List Item) (item : Item)
    (h : ∀ e ∈ db, e.id ≠ item.id) :
    create_item db item = (db ++ [item], .ok item) := by
  have hc : (db.any fun existing => existing.id = item.id) = false := by
    rw [List.any_eq_false]
    intro e he
    simpa using h e he
  simp [create_item, hc]

theorem create_item_of_dup (db : List Item) (item e : Item)
    (he : e ∈ db) (heq : e.id = item.id) :
    create_item db item = (db, .error duplicateKeyExc) := by
  have hc : (db.any fun existing => existing.id = item.id) = true := by
    rw [List.any_eq_true]
    exact ⟨e, he, by simpa using heq⟩
  simp [create_item, hc]

/-! Invariant machinery: how each operation acts on the stored ids. -/

theorem delete_item_sublist (db : List Item) (item_id : Int) :
    (delete_item db item_id).1.Sublist db := by
  induction db with
  | nil => simp [delete_item]
  | cons a rest ih =>
    by_cases ha : a.id = item_id
    · simp only [delete_item, ha, if_true, ite_true]
      exact List.sublist_cons_self a rest
    · simp only [delete_item, ha, ite_false]
      exact ih.cons₂ a

theorem update_item_map_id (db : List Item) (item_id : Int) (X : Item)
    (hX : X.id = item_id) :
    (update_item db item_id X).1.map Item.id = db.map Item.id := by
  induction db with
  | nil => rfl
  | cons a rest ih =>
    by_cases ha : a.id = item_id
    · simp [update_item, ha, hX]
    · simp [update_item, ha, ih]

theorem applyOp_nodup (db : List Item) (op : Op)
    (hdb : (db.map Item.id).Nodup)
    (hop : updateConsistent op = true) :
    ((applyOp db op).map Item.id).Nodup := by
  cases op with
  | create item =>
    by_cases hc : ∃ e ∈ db, e.id = item.id
    · obtain ⟨e, he, heq⟩ := hc
      simp [applyOp, create_item_of_dup db item e he heq, hdb]
    · push_neg at hc
      simp only [applyOp, create_item_of_no_dup db item hc, List.map_append,
        List.map_cons, List.map_nil]
      rw [List.nodup_append]
      refine ⟨hdb, List.nodup_singleton _, ?_⟩
      intro x hx hx'
      obtain ⟨e, he, rfl⟩ := List.mem_map.mp hx
      simp only [List.mem_singleton] at hx'
      exact hc e he hx'
  | update item_id X =>
    have hX : X.id = item_id := by simpa [updateConsistent] using hop
    have hmap := update_item_map_id db item_id X hX
    simpa [applyOp, hmap] using hdb
  | delete item_id =>
    have hs := (delete_item_sublist db item_id).map Item.id
    exact hdb.sublist hs

theorem foldl_applyOp_nodup (ops : List Op) (db : List Item)
    (hdb : (db.map Item.id).Nodup)
    (hops : ∀ op ∈ ops, updateConsistent op = true) :
    ((ops.foldl applyOp db).map Item.id).Nodup := by
  induction ops generalizing db with
  | nil => simpa using hdb
  | cons op rest ih =>
    rw [List.foldl_cons]
    exact ih (applyOp db op)
      (applyOp_nodup db op hdb (hops op (by simp)))
      (fun o ho => hops o (by simp [ho]))

theorem foldl_create_append (items : List Item) (db : List Item)
    (h : (db.map Item.id ++ items.map Item.id).Nodup) :
    (items.map Op.create).foldl applyOp db = db ++ items := by
  induction items generalizing db with
  | nil => simp
  | cons a rest ih =>
    rw [List.map_cons, List.foldl_cons]
    have hdisj := (List.nodup_append.mp h).2.2
    have hnotin : ∀ e ∈ db, e.id ≠ a.id := by
      intro e he heq
      exact hdisj (List.mem_map_of_mem Item.id he) (by simp [heq])
    have hstep : applyOp db (Op.create a) = db ++ [a] := by
      simp [applyOp, create_item_of_no_dup db a hnotin]
    have h' : ((db ++ [a]).map Item.id ++ rest.map Item.id).Nodup := by
      simpa [List.append_assoc] using h
    rw [hstep, ih (db ++ [a]) h']
    simp

/-! Claim theorems. -/

/-- C1, counterexample: the claimed uniqueness invariant fails on the code.
The state reached from the empty registry by
Create(id 1), Create(id 2), Update(path id 2, body id 1) stores two items
with id 1, because `update_item` never cross-checks the embedded id. -/
theorem C1_counterexample :
    ¬ ((runOps [Op.create ⟨1, "Pen", 1, none⟩, Op.create ⟨2, "Book", 2, none⟩,
        Op.update 2 ⟨1, "Book", 2, none⟩]).map Item.id).Nodup := by
  decide

/-- C1 (amended): in every state reachable from the empty registry by
Create, Update, and Delete operations in which every Update carries an
embedded id equal to its path id, at most one stored Item has any given
id value (the stored ids are pairwise distinct). -/
theorem C1_uniqueness_of_consistent_updates (ops : List Op)
    (hops : ∀ op ∈ ops, updateConsistent op = true) :
    ((runOps ops).map Item.id).Nodup :=
  foldl_applyOp_nodup ops [] (by simp) hops

/-- Witness for C1 at a concrete call sequence exercising all three
operation kinds. -/
theorem C1_uniqueness_of_consistent_updates_witness :
    (∀ op ∈ ([Op.create ⟨1, "Pen", 1, none⟩, Op.update 1 ⟨1, "Pencil", 2, none⟩,
        Op.delete 1, Op.create ⟨1, "Book", 3, none⟩] : List Op),
      updateConsistent op = true) ∧
    ((runOps [Op.create ⟨1, "Pen", 1, none⟩, Op.update 1 ⟨1, "Pencil", 2, none⟩,
        Op.delete 1, Op.create ⟨1, "Book", 3, none⟩]).map Item.id).Nodup :=
  ⟨by decide, C1_uniqueness_of_consistent_updates _ (by decide)⟩

/-- C2, counterexample: in the reachable state holding two items with
id 1 (via Update's unchecked embedded id), Delete(1) succeeds yet the
immediately following Get(1) still succeeds, returning the surviving
duplicate instead of failing with NotFound. -/
theorem C2_counterexample :
    (delete_item (runOps [Op.create ⟨1, "Pen", 1, none⟩,
        Op.create ⟨2, "Book", 2, none⟩, Op.update 2 ⟨1, "Book", 2, none⟩]) 1).2
      = .ok { message := "Item deleted successfully" } ∧
    get_item (delete_item (runOps [Op.create ⟨1, "Pen", 1, none⟩,
        Op.create ⟨2, "Book", 2, none⟩, Op.update 2 ⟨1, "Book", 2, none⟩]) 1).1 1
      = .ok ⟨1, "Book", 2, none⟩ :=
  ⟨rfl, rfl⟩

/-- C2 (amended): in any state storing exactly one item with the given id
(written as `pre ++ it :: post` with no other match), Delete(id) succeeds,
an immediately following Get(id) fails with NotFound, and the stored count
drops by exactly one. -/
theorem C2_delete_then_get_amended (db pre post : List Item) (it : Item)
    (item_id : Int) (hdb : db = pre ++ it :: post)
    (hpre : ∀ e ∈ pre, e.id ≠ item_id) (hit : it.id = item_id)
    (hpost : ∀ e ∈ post, e.id ≠ item_id) :
    (delete_item db item_id).2 = .ok { message := "Item deleted successfully" } ∧
    get_item (delete_item db item_id).1 item_id = .error notFoundExc ∧
    (delete_item db item_id).1.length + 1 = db.length := by
  subst hdb
  rw [delete_item_first_match pre post it item_id hpre hit]
  refine ⟨rfl, ?_, by simp only [List.length_append, List.length_cons]; omega⟩
  refine get_item_of_no_match (pre ++ post) item_id ?_
  intro e he
  rcases List.mem_append.mp he with h | h
  · exact hpre e h
  · exact hpost e h

/-- Witness for C2 on a three-item store whose middle item is the unique
match. -/
theorem C2_delete_then_get_amended_witness :
    (delete_item [⟨5, "A", 1, none⟩, ⟨2, "B", 1, none⟩, ⟨7, "C", 1, none⟩] 2).2
      = .ok { message := "Item deleted successfully" } ∧
    get_item (delete_item [⟨5, "A", 1, none⟩, ⟨2, "B", 1, none⟩,
        ⟨7, "C", 1, none⟩] 2).1 2 = .error notFoundExc ∧
    (delete_item [⟨5, "A", 1, none⟩, ⟨2, "B", 1, none⟩,
        ⟨7, "C", 1, none⟩] 2).1.length + 1
      = ([⟨5, "A", 1, none⟩, ⟨2, "B", 1, none⟩, ⟨7, "C", 1, none⟩] : List Item).length :=
  C2_delete_then_get_amended _ [⟨5, "A", 1, none⟩] [⟨7, "C", 1, none⟩]
    ⟨2, "B", 1, none⟩ 2 rfl (by decide) rfl (by decide)

/-- C3, counterexample: from the reachable one-item state Create(id 1),
Update(path id 1, body id 2) succeeds and returns the new record, but the
immediately following Get(1) fails with NotFound rather than returning the
new record's field values. -/
theorem C3_counterexample :
    (update_item (runOps [Op.create ⟨1, "Pen", 1, none⟩]) 1 ⟨2, "Pen", 1, none⟩).2
      = .ok ⟨2, "Pen", 1, none⟩ ∧
    get_item (update_item (runOps [Op.create ⟨1, "Pen", 1, none⟩]) 1
        ⟨2, "Pen", 1, none⟩).1 1
      = .error notFoundExc :=
  ⟨rfl, rfl⟩

/-- C3 (amended): when Update(id, X) succeeds (the state decomposes as
`pre ++ it :: post` around the first match), the stored record at the
matched position is fully replaced by X, Update returns X, and — provided
X's embedded id equals the path id — a subsequent Get(id) returns exactly
X's field values. -/
theorem C3_update_then_get_amended (pre post : List Item) (it X : Item)
    (item_id : Int) (hpre : ∀ e ∈ pre, e.id ≠ item_id)
    (hit : it.id = item_id) :
    (update_item (pre ++ it :: post) item_id X).1 = pre ++ X :: post ∧
    (update_item (pre ++ it :: post) item_id X).2 = .ok X ∧
    (X.id = item_id →
      get_item (update_item (pre ++ it :: post) item_id X).1 item_id = .ok X) := by
  rw [update_item_first_match pre post it X item_id hpre hit]
  exact ⟨rfl, rfl, fun hX => get_item_first_match pre post X item_id hpre hX⟩

/-- Witness for C3: updating id 2 in a two-item store with a body whose
embedded id also is 2. -/
theorem C3_update_then_get_amended_witness :
    (update_item ([⟨5, "A", 1, none⟩] ++ ⟨2, "B", 1, none⟩ :: [])
        2 ⟨2, "B2", 3, none⟩).1
      = [⟨5, "A", 1, none⟩] ++ ⟨2, "B2", 3, none⟩ :: [] ∧
    (update_item ([⟨5, "A", 1, none⟩] ++ ⟨2, "B", 1, none⟩ :: [])
        2 ⟨2, "B2", 3, none⟩).2 = .ok ⟨2, "B2", 3, none⟩ ∧
    ((⟨2, "B2", 3, none⟩ : Item).id = 2 →
      get_item (update_item ([⟨5, "A", 1, none⟩] ++ ⟨2, "B", 1, none⟩ :: [])
          2 ⟨2, "B2", 3, none⟩).1 2 = .ok ⟨2, "B2", 3, none⟩) :=
  C3_update_then_get_amended [⟨5, "A", 1, none⟩] [] ⟨2, "B", 1, none⟩
    ⟨2, "B2", 3, none⟩ 2 (by decide) rfl

/-- C4 (confirmed): when some stored item `e` already has the new item's
id, Create fails with DuplicateKey and the stored collection after the
failed call equals the collection before it. -/
theorem C4_create_duplicate_unchanged (db : List Item) (item e : Item)
    (he : e ∈ db) (heq : e.id = item.id) :
    (create_item db item).2 = .error duplicateKeyExc ∧
    (create_item db item).1 = db := by
  rw [create_item_of_dup db item e he heq]
  exact ⟨rfl, rfl⟩

/-- Witness for C4: re-creating id 1 on a one-item store. -/
theorem C4_create_duplicate_unchanged_witness :
    ((⟨1, "Pen", 1, none⟩ : Item) ∈ ([⟨1, "Pen", 1, none⟩] : List Item) ∧
      (⟨1, "Pen", 1, none⟩ : Item).id = (⟨1, "Other", 2, none⟩ : Item).id) ∧
    (create_item [⟨1, "Pen", 1, none⟩] ⟨1, "Other", 2, none⟩).2
      = .error duplicateKeyExc ∧
    (create_item [⟨1, "Pen", 1, none⟩] ⟨1, "Other", 2, none⟩).1
      = [⟨1, "Pen", 1, none⟩] :=
  ⟨⟨by decide, rfl⟩,
   C4_create_duplicate_unchanged [⟨1, "Pen", 1, none⟩] ⟨1, "Other", 2, none⟩
     ⟨1, "Pen", 1, none⟩ (by decide) rfl⟩

/-- C5 (confirmed): running any sequence of Create calls whose items have
pairwise distinct ids from the empty registry makes ListAll return exactly
those items in call order; on the empty registry ListAll returns the empty
sequence (and by its type it never fails). -/
theorem C5_listall_returns_creates_in_order (items : List Item)
    (h : (items.map Item.id).Nodup) :
    get_all_items (runOps (items.map Op.create)) = items ∧
    get_all_items ([] : List Item) = [] := by
  refine ⟨?_, rfl⟩
  have hfold := foldl_create_append items [] (by simpa using h)
  simpa [runOps, get_all_items] using hfold

/-- Witness for C5 at two creates with distinct ids. -/
theorem C5_listall_returns_creates_in_order_witness :
    (([⟨1, "Pen", 1, none⟩, ⟨2, "Book", 2, none⟩] : List Item).map Item.id).Nodup ∧
    get_all_items (runOps (([⟨1, "Pen", 1, none⟩, ⟨2, "Book", 2, none⟩] :
        List Item).map Op.create))
      = [⟨1, "Pen", 1, none⟩, ⟨2, "Book", 2, none⟩] ∧
    get_all_items ([] : List Item) = [] :=
  ⟨by decide,
   C5_listall_returns_creates_in_order
     [⟨1, "Pen", 1, none⟩, ⟨2, "Book", 2, none⟩] (by decide)⟩

/-- C6 (confirmed): on an id with no matching stored item, Get, Update,
and Delete each fail with NotFound, and the two mutating calls leave the
stored collection unchanged. -/
theorem C6_missing_id_not_found (db : List Item) (item_id : Int) (X : Item)
    (h : ∀ e ∈ db, e.id ≠ item_id) :
    get_item db item_id = .error notFoundExc ∧
    update_item db item_id X = (db, .error notFoundExc) ∧
    delete_item db item_id = (db, .error notFoundExc) :=
  ⟨get_item_of_no_match db item_id h,
   update_item_of_no_match db item_id X h,
   delete_item_of_no_match db item_id h⟩

/-- Witness for C6: id 9 is absent from a two-item store. -/
theorem C6_missing_id_not_found_witness :
    (∀ e ∈ ([⟨1, "Pen", 1, none⟩, ⟨2, "Book", 2, none⟩] : List Item),
      e.id ≠ (9 : Int)) ∧
    get_item [⟨1, "Pen", 1, none⟩, ⟨2, "Book", 2, none⟩] 9
      = .error notFoundExc ∧
    update_item [⟨1, "Pen", 1, none⟩, ⟨2, "Book", 2, none⟩] 9 ⟨9, "X", 1, none⟩
      = ([⟨1, "Pen", 1, none⟩, ⟨2, "Book", 2, none⟩], .error notFoundExc) ∧
    delete_item [⟨1, "Pen", 1, none⟩, ⟨2, "Book", 2, none⟩] 9
      = ([⟨1, "Pen", 1, none⟩, ⟨2, "Book", 2, none⟩], .error notFoundExc) :=
  ⟨by decide,
   C6_missing_id_not_found [⟨1, "Pen", 1, none⟩, ⟨2, "Book", 2, none⟩] 9
     ⟨9, "X", 1, none⟩ (by decide)⟩

/-- C7 (confirmed): when Create(item) succeeds (no stored id collides),
an immediately following Get(item.id) returns a record equal to `item`
in all four fields. -/
theorem C7_create_get_roundtrip (db : List Item) (item : Item)
    (h : ∀ e ∈ db, e.id ≠ item.id) :
    (create_item db item).2 = .ok item ∧
    get_item (create_item db item).1 item.id = .ok item := by
  rw [create_item_of_no_dup db item h]
  exact ⟨rfl, get_item_first_match db [] item item.id h rfl⟩

/-- Witness for C7: creating id 2 next to an unrelated stored item. -/
theorem C7_create_get_roundtrip_witness :
    (∀ e ∈ ([⟨1, "Pen", 1, none⟩] : List Item),
      e.id ≠ (⟨2, "Book", 2, some "novel"⟩ : Item).id) ∧
    (create_item [⟨1, "Pen", 1, none⟩] ⟨2, "Book", 2, some "novel"⟩).2
      = .ok ⟨2, "Book", 2, some "novel"⟩ ∧
    get_item (create_item [⟨1, "Pen", 1, none⟩] ⟨2, "Book", 2, some "novel"⟩).1
        (⟨2, "Book", 2, some "novel"⟩ : Item).id
      = .ok ⟨2, "Book", 2, some "novel"⟩ :=
  ⟨by decide,
   C7_create_get_roundtrip [⟨1, "Pen", 1, none⟩] ⟨2, "Book", 2, some "novel"⟩
     (by decide)⟩

/-- C8 (confirmed): when no stored item has the new item's id, Create
appends the item at the end, returns it unchanged, and the collection
grows by exactly one. -/
theorem C8_create_appends (db : List Item) (item : Item)
    (h : ∀ e ∈ db, e.id ≠ item.id) :
    create_item db item = (db ++ [item], .ok item) ∧
    (create_item db item).1.length = db.length + 1 := by
  have hc := create_item_of_no_dup db item h
  refine ⟨hc, ?_⟩
  rw [hc]
  simp

/-- Witness for C8: creating id 2 next to an unrelated stored item. -/
theorem C8_create_appends_witness :
    (∀ e ∈ ([⟨1, "Pen", 1, none⟩] : List Item),
      e.id ≠ (⟨2, "Book", 2, none⟩ : Item).id) ∧
    create_item [⟨1, "Pen", 1, none⟩] ⟨2, "Book", 2, none⟩
      = ([⟨1, "Pen", 1, none⟩] ++ [⟨2, "Book", 2, none⟩], .ok ⟨2, "Book", 2, none⟩) ∧
    (create_item [⟨1, "Pen", 1, none⟩] ⟨2, "Book", 2, none⟩).1.length
      = ([⟨1, "Pen", 1, none⟩] : List Item).length + 1 :=
  ⟨by decide,
   C8_create_appends [⟨1, "Pen", 1, none⟩] ⟨2, "Book", 2, none⟩ (by decide)⟩

/-- C9 (confirmed): when some stored item `e` matches the id, Delete
succeeds and returns exactly the acknowledgment payload
`{"message": "Item deleted successfully"}`. -/
theorem C9_delete_ack (db : List Item) (item_id : Int) (e : Item)
    (he : e ∈ db) (heq : e.id = item_id) :
    (delete_item db item_id).2 = .ok { message := "Item deleted successfully" } := by
  induction db with
  | nil => simp at he
  | cons a rest ih =>
    by_cases ha : a.id = item_id
    · simp [delete_item, ha]
    · have hr : e ∈ rest := by
        rcases List.mem_cons.mp he with rfl | hr
        · exact absurd heq ha
        · exact hr
      simp only [delete_item, ha, ite_false]
      exact ih hr

/-- Witness for C9: deleting id 2, stored second. -/
theorem C9_delete_ack_witness :
    ((⟨2, "Book", 2, none⟩ : Item) ∈
        ([⟨1, "Pen", 1, none⟩, ⟨2, "Book", 2, none⟩] : List Item) ∧
      (⟨2, "Book", 2, none⟩ : Item).id = (2 : Int)) ∧
    (delete_item [⟨1, "Pen", 1, none⟩, ⟨2, "Book", 2, none⟩] 2).2
      = .ok { message := "Item deleted successfully" } :=
  ⟨⟨by decide, rfl⟩,
   C9_delete_ack [⟨1, "Pen", 1, none⟩, ⟨2, "Book", 2, none⟩] 2
     ⟨2, "Book", 2, none⟩ (by decide) rfl⟩

/-- C10 (confirmed): in any state decomposed as `pre ++ it :: post` around
the first stored record whose id matches (every record in `pre` has a
different id), Get returns that record, Update replaces exactly that
record in place, and Delete removes exactly that record; every other
stored record and the relative order of the remaining records are
unchanged. -/
theorem C10_first_match_frame (pre post : List Item) (it X : Item)
    (item_id : Int) (hpre : ∀ e ∈ pre, e.id ≠ item_id)
    (hit : it.id = item_id) :
    get_item (pre ++ it :: post) item_id = .ok it ∧
    update_item (pre ++ it :: post) item_id X = (pre ++ X :: post, .ok X) ∧
    delete_item (pre ++ it :: post) item_id
      = (pre ++ post, .ok { message := "Item deleted successfully" }) :=
  ⟨get_item_first_match pre post it item_id hpre hit,
   update_item_first_match pre post it X item_id hpre hit,
   delete_item_first_match pre post it item_id hpre hit⟩

/-- Witness for C10 on a store holding two items with id 2: the first
match (stored second) is the one acted on, the duplicate behind it and the
non-matching item in front of it survive in order. -/
theorem C10_first_match_frame_witness :
    (∀ e ∈ ([⟨5, "A", 1, none⟩] : List Item), e.id ≠ (2 : Int)) ∧
    get_item ([⟨5, "A", 1, none⟩] ++ ⟨2, "B", 1, none⟩ :: [⟨2, "C", 1, none⟩]) 2
      = .ok ⟨2, "B", 1, none⟩ ∧
    update_item ([⟨5, "A", 1, none⟩] ++ ⟨2, "B", 1, none⟩ :: [⟨2, "C", 1, none⟩]) 2
        ⟨2, "B2", 4, none⟩
      = ([⟨5, "A", 1, none⟩] ++ ⟨2, "B2", 4, none⟩ :: [⟨2, "C", 1, none⟩],
         .ok ⟨2, "B2", 4, none⟩) ∧
    delete_item ([⟨5, "A", 1, none⟩] ++ ⟨2, "B", 1, none⟩ :: [⟨2, "C", 1, none⟩]) 2
      = ([⟨5, "A", 1, none⟩] ++ [⟨2, "C", 1, none⟩],
         .ok { message := "Item deleted successfully" }) :=
  ⟨by decide,
   C10_first_match_frame [⟨5, "A", 1, none⟩] [⟨2, "C", 1, none⟩]
     ⟨2, "B", 1, none⟩ ⟨2, "B2", 4, none⟩ 2 (by decide) rfl⟩

end Registry
